import Mathlib

/-!
Verification of the Mexico City growth data compiler
(`mexico_city_data_compiler.py`): a shallow embedding of the core
pipeline (tabular-source parser, housing-index parser, reconciliation
join, growth/CAGR engine) together with theorems about it.

Modelling conventions:
* Python/NumPy float values are embedded as `Option ℚ`: `none` stands
  for NaN (missing), `some q` for a finite value.  NaN-propagation of
  float arithmetic is made explicit in each derived-field definition,
  mirroring the source's `np.isnan` guards.
* The float power operator `**` used by the CAGR formula is abstracted
  as an explicit function parameter `pw : ℚ → ℚ → ℚ`.
* `BeautifulSoup`'s row extraction is abstracted: an input spreadsheet
  file is its list of `<tr>` rows, each row the list of stripped cell
  texts; the housing CSV is its list of records.  A file that cannot
  be opened is `none`; an in-parse exception is modelled by the
  partial parsing function returning `none`.
* NumPy's global random stream (used only by the synthetic-sample
  fallback) is abstracted as a stream `rng : ℕ → ℚ`; a uniform draw
  from `[a, b]` at position `k` is modelled as `a + (b - a) * rng k`.
* Iteration order of the Python `set` of city names in `compile_data`
  is hash-dependent and not a function of the input files; it is made
  an explicit `order : List String` parameter (constrained, where it
  matters, to enumerate each member of the set exactly once).
-/

/-- A float cell value: `none` is NaN / missing, `some q` a number. -/
abbrev Val := Option ℚ

/-- A per-city time series: association list from time-point token to
value, in row order (models a `pd.Series` with string index). -/
abbrev Series := List (String × Val)

/-- A city-to-series dictionary (models the Python `dict`). -/
abbrev CityMap := List (String × Series)

/-- Lookup of a time point in a series, defaulting to NaN: models
`series.get(tp, np.nan)`.  First matching index label wins. -/
def seriesGet (s : Series) (tp : String) : Val :=
  match s.find? (fun p => p.1 == tp) with
  | some p => p.2
  | none => none

/-- Dictionary lookup: models `d[k]` / `k in d`.  A Python dict keeps
the latest assignment for a duplicated key, hence the right-most
binding wins. -/
def mapFind (m : CityMap) (c : String) : Option Series :=
  (m.reverse.find? (fun p => p.1 == c)).map (·.2)

/-- Models `d.get(city, pd.Series()).get(tp, np.nan)`. -/
def mapGet (m : CityMap) (c : String) (tp : String) : Val :=
  match mapFind m c with
  | some s => seriesGet s tp
  | none => none

/-! ### String utilities

Self-contained, structurally recursive models of the Python string
operations the source uses, so that concrete instances reduce inside
the kernel. -/

/-- Digit list to natural number (most significant first). -/
def digitsToNat (l : List Char) : ℕ :=
  l.foldl (fun a c => 10 * a + (c.toNat - 48)) 0

/-- One left-to-right, non-overlapping replacement pass over a char
list, with explicit fuel (the list length suffices when the pattern is
nonempty).  Models Python `str.replace`, which replaces every
occurrence, not only a leading one. -/
def replaceChars (pat rep : List Char) : ℕ → List Char → List Char
  | 0, l => l
  | _ + 1, [] => []
  | fuel + 1, c :: cs =>
    if pat ≠ [] ∧ pat.isPrefixOf (c :: cs) then
      rep ++ replaceChars pat rep fuel ((c :: cs).drop pat.length)
    else
      c :: replaceChars pat rep fuel cs

/-- Models Python `s.replace(pat, rep)` for a nonempty pattern. -/
def strReplace (s pat rep : String) : String :=
  String.mk (replaceChars pat.toList rep.toList s.toList.length s.toList)

/-- Models Python `s.startswith(pre)` / the anchored regex search
`re.search('^pre', s)`. -/
def strStartsWith (s pre : String) : Bool :=
  pre.toList.isPrefixOf s.toList

/-- Models Python `pat in s` (substring containment). -/
def strContainsSub (s pat : String) : Bool :=
  (List.range (s.toList.length + 1)).any
    (fun i => pat.toList.isPrefixOf (s.toList.drop i))

/-- First whitespace-separated token of an (already stripped) cell
text: models `text.split()[0]` as used on the quarter header cells. -/
def firstToken (s : String) : String :=
  String.mk (s.toList.takeWhile (fun c => ¬ c.isWhitespace))

/-- The decimal-literal fragment of Python's `float` constructor:
optional sign, digits with at most one point (at least one digit
overall), optional `e`/`E` exponent with optional sign.  The special
spellings `inf` / `nan` and digit-group underscores accepted by
Python are irrelevant to the data files and are not modelled (they
would parse to `none` here).  `none` models the `ValueError` that the
caller catches. -/
def pyFloat (s : String) : Option ℚ :=
  let l := s.toList
  let sl : Bool × List Char :=
    match l with
    | '-' :: t => (true, t)
    | '+' :: t => (false, t)
    | t => (false, t)
  let neg := sl.1
  let ipl := sl.2.span (·.isDigit)
  let ip := ipl.1
  let fpl : List Char × List Char :=
    match ipl.2 with
    | '.' :: t => t.span (·.isDigit)
    | t => ([], t)
  let fp := fpl.1
  if ip.length + fp.length = 0 then none
  else
    let mant : ℚ :=
      (digitsToNat ip : ℚ) + (digitsToNat fp : ℚ) / (10 : ℚ) ^ fp.length
    let mant := if neg then -mant else mant
    match fpl.2 with
    | [] => some mant
    | e :: t =>
      if e = 'e' ∨ e = 'E' then
        let esl : Bool × List Char :=
          match t with
          | '-' :: t2 => (true, t2)
          | '+' :: t2 => (false, t2)
          | t2 => (false, t2)
        let edl := esl.2.span (·.isDigit)
        if edl.1 = [] ∨ edl.2 ≠ [] then none
        else
          some (mant * (10 : ℚ) ^
            (if esl.1 then -(digitsToNat edl.1 : ℤ) else (digitsToNat edl.1 : ℤ)))
      else none

/-- Parsing of one data cell of a spreadsheet-like source file
(`read_excel_html_table`, inner loop): the sentinel `"No aplica"`
yields NaN; otherwise the decimal comma is replaced by a period and
the text is parsed as a float, any parse failure yielding NaN. -/
def parseCell (text : String) : Val :=
  if text = "No aplica" then none
  else pyFloat (strReplace text "," ".")

/-! ### Tabular-source parser (`read_excel_html_table`)

An input file is abstracted as the list of its `<tr>` rows, each row
the list of its `<td>` cell texts after `.strip()`. -/

/-- A spreadsheet-like source file after the BeautifulSoup layer. -/
abbrev ExcelFile := List (List String)

/-- Result of a successful parse: the per-city series dictionary and
the ordered time-point list. -/
structure ExcelParse where
  city_data : CityMap
  time_points : List String
deriving DecidableEq

/-- Construction of the time-point sequence from the year header row
and the quarter header row (`rows[6]`, `rows[7]`, cells `[1:]`):
pairs with an empty year or quarter cell are skipped; a non-empty year
cell with no corresponding quarter cell is an `IndexError`
(modelled as `none`), which the caller's `except` turns into the
sample-data fallback. -/
def buildTimePoints : List String → List String → Option (List String)
  | [], _ => some []
  | y :: ys, [] => if y = "" then buildTimePoints ys [] else none
  | y :: ys, q :: qs =>
    if y = "" ∨ q = "" then buildTimePoints ys qs
    else (buildTimePoints ys qs).map (fun rest => (y ++ "Q" ++ firstToken q) :: rest)

/-- One data row (`rows[8:]`): rows with at most one cell, a blank
city name, or the reserved aggregate label are skipped; the remaining
cells are parsed with `parseCell` and the row is kept only when the
value count equals the time-point count. -/
def parseDataRow (tps : List String) (cells : List String) : Option (String × Series) :=
  if cells.length > 1 then
    let city := cells.headD ""
    if city ≠ "" ∧ city ≠ "Áreas metropolitanas" then
      let values := (cells.drop 1).map parseCell
      if values.length = tps.length then some (city, tps.zip values) else none
    else none
  else none

/-- The body of `read_excel_html_table`'s `try` block.  `none` models
any exception escaping that block (here: missing header rows or a
quarter-header `IndexError`). -/
def parseRows (rows : ExcelFile) : Option ExcelParse :=
  match rows.get? 6, rows.get? 7 with
  | some hrow, some qrow =>
    (buildTimePoints (hrow.drop 1) (qrow.drop 1)).map (fun tps =>
      { city_data := (rows.drop 8).filterMap (parseDataRow tps),
        time_points := tps })
  | _, _ => none

/-! ### The synthetic-sample fallback (`create_sample_data`)

Excluded from the spec's core, but part of the module: the `except`
branch of each reader calls it.  `np.random.uniform(a, b)` at global
draw position `k` is modelled as `a + (b - a) * rng k`. -/

def sampleCities : List String :=
  ["Ciudad de México", "Ciudad de Guadalajara", "Ciudad de Monterrey",
   "Ciudad de Puebla", "Ciudad de León"]

/-- Time points 2015Q1 .. 2020Q4 (years `range(2015, 2021)`). -/
def sampleTimePoints : List String :=
  (List.range 6).flatMap (fun y =>
    (List.range 4).map (fun q => toString (2015 + y) ++ "Q" ++ toString (q + 1)))

/-- Population base by city in the population-sample branch. -/
def samplePopBase (city : String) : ℚ :=
  if city = "Ciudad de México" then 19000000
  else if city = "Ciudad de Guadalajara" ∨ city = "Ciudad de Monterrey" then 4000000
  else 2000000

/-- One sample value: `k` is the global draw index, `i` the time-point
index, `n` the number of time points. -/
def sampleValue (rng : ℕ → ℚ) (ft city : String) (k i n : ℕ) : ℚ :=
  if strContainsSub ft "Employment" then 50 + 15 * rng k
  else if strContainsSub ft "salary" then 30 + 20 * rng k
  else if strContainsSub ft "Population" then
    samplePopBase city * (1 + (2 / 100) * ((i : ℚ) / (n : ℚ)))
      * (1 + ((-1 / 100) + (2 / 100) * rng k))
  else 50 + 50 * rng k

/-- Models `create_sample_data(file_type)`. -/
def create_sample_data (rng : ℕ → ℚ) (ft : String) : CityMap × List String :=
  let n := sampleTimePoints.length
  (sampleCities.enum.map (fun ci =>
     (ci.2, (sampleTimePoints.enum.map (fun ti =>
        (ti.2, some (sampleValue rng ft ci.2 (ci.1 * n + ti.1) ti.1 n)))))),
   sampleTimePoints)

/-- The Data-Source-Unavailable condition of the spec's error
taxonomy. -/
inductive SourceError where
  | unavailable
deriving DecidableEq

/-- Models `read_excel_html_table(file_path)`: `input = none` is a
file that cannot be opened; a `some` input whose parse raises
(`parseRows _ = none`) hits the same `except` branch.  In both cases
the function recovers internally by building synthetic sample data —
no error escapes to the caller. -/
def read_excel_html_table (rng : ℕ → ℚ) (ft : String) (input : Option ExcelFile) :
    CityMap × List String :=
  match input with
  | some rows =>
    match parseRows rows with
    | some p => (p.city_data, p.time_points)
    | none => create_sample_data rng ft
  | none => create_sample_data rng ft

/-- Modelled from the spec: the failure mode the spec prescribes for
the tabular-source parser — "if the file cannot be opened or parsed,
the parser fails with a Data-Source-Unavailable condition" that is
propagated to the caller.  Second definition, written from the spec's
words, for comparison with `read_excel_html_table` above. -/
def read_excel_per_spec (input : Option ExcelFile) :
    Except SourceError (CityMap × List String) :=
  match input with
  | some rows =>
    match parseRows rows with
    | some p => Except.ok (p.city_data, p.time_points)
    | none => Except.error SourceError.unavailable
  | none => Except.error SourceError.unavailable

/-! ### Housing-index parser (`read_housing_cost`) -/

/-- One record of the housing CSV after the `pd.read_csv` layer:
the `Global`, `Año` (as string), `Trimestre` (as string) and `Indice`
columns. -/
structure CsvRow where
  globalId : String
  ano : String
  trimestre : String
  indice : Val
deriving DecidableEq

/-- The metropolitan-area filter
`data[data['Global'].str.contains('^ZM', regex=True)]`: the anchored
regex keeps exactly the rows whose identifier starts with the
two-character prefix `"ZM"`. -/
def zmFilter (rows : List CsvRow) : List CsvRow :=
  rows.filter (fun r => strStartsWith r.globalId "ZM")

/-- Canonical city name of a ZM identifier: every occurrence of
`"ZM "` removed, then the two hard-coded renames. -/
def zmCityName (zm : String) : String :=
  let c := strReplace zm "ZM " ""
  if c = "Valle México" then "Ciudad de México"
  else if c = "PueblaTlax" then "Ciudad de Puebla"
  else c

/-- Distinct elements in first-occurrence order: models
`pandas.unique` (whereas `List.dedup` keeps last occurrences). -/
def dedupFirst [DecidableEq α] : List α → List α
  | [] => []
  | a :: l => a :: (dedupFirst l).filter (fun b => b ≠ a)

/-- The `try` body of `read_housing_cost`: filter to ZM rows, then one
dictionary entry per distinct identifier (first-occurrence order, as
`pandas.unique`), with the time series `Año ++ "Q" ++ Trimestre` over
that identifier's rows in order. -/
def parseHousing (rows : List CsvRow) : CityMap :=
  let zm := zmFilter rows
  (dedupFirst (zm.map (·.globalId))).map (fun z =>
    (zmCityName z,
     (zm.filter (fun r => r.globalId == z)).map
       (fun r => (r.ano ++ "Q" ++ r.trimestre, r.indice))))

/-- Sample housing data of the `except` branch. -/
def sampleHousingBase (city : String) : ℚ :=
  if city = "México" then 150
  else if city = "Guadalajara" ∨ city = "Monterrey" then 120
  else 90

def sampleHousingCities : List String :=
  ["México", "Guadalajara", "Monterrey", "Puebla", "León"]

def sampleHousing (rng : ℕ → ℚ) : CityMap :=
  let n := sampleTimePoints.length
  sampleHousingCities.enum.map (fun ci =>
    (ci.2, sampleTimePoints.enum.map (fun ti =>
      (ti.2, some (sampleHousingBase ci.2 * (1 + (5 / 100) * ((ti.1 : ℚ) / (n : ℚ)))
        * (1 + ((-1 / 100) + (2 / 100) * rng (ci.1 * n + ti.1))))))))

/-- Models `read_housing_cost(file_path)`: like the tabular parser it
recovers internally (synthetic data) when the file cannot be opened
or parsed. -/
def read_housing_cost (rng : ℕ → ℚ) (input : Option (List CsvRow)) : CityMap :=
  match input with
  | some rows => parseHousing rows
  | none => sampleHousing rng

/-! ### Reconciliation join (`compile_data`) -/

/-- One row of the unified dataset. -/
structure URow where
  city : String
  time_point : String
  year : ℤ
  quarter : ℤ
  employment_rate : Val
  hourly_salary : Val
  population : Val
  housing_index : Val
  monthly_salary : Val
  real_wage : Val
deriving DecidableEq

/-- Models `re.match(r'(\d{4})Q(\d)', tp)`: anchored at the start
only — four digits, a literal `Q`, one digit, then anything. -/
def parseTimePoint (tp : String) : Option (ℤ × ℤ) :=
  match tp.toList with
  | a :: b :: c :: d :: e :: f :: _ =>
    if a.isDigit ∧ b.isDigit ∧ c.isDigit ∧ d.isDigit ∧ e = 'Q' ∧ f.isDigit then
      some ((digitsToNat [a, b, c, d] : ℤ), ((f.toNat - 48 : ℕ) : ℤ))
    else none
  | _ => none

/-- Resolution of the housing index for one `(city, tp)`: first key is
the city name with every occurrence of `"Ciudad de "` removed
(`city.replace('Ciudad de ', '')`), second key the unmodified name;
the first key present in the dictionary wins (even when that series
lacks the time point), and NaN results when neither key is present. -/
def housingLookup (hous : CityMap) (city tp : String) : Val :=
  match mapFind hous (strReplace city "Ciudad de " "") with
  | some s => seriesGet s tp
  | none =>
    match mapFind hous city with
    | some s => seriesGet s tp
    | none => none

/-- Modelled from the spec: the spec describes the first housing
lookup key as "the city name with the `Ciudad de ` prefix stripped".
Second definition, written from the spec's words, for comparison with
the `strReplace`-based key used by `housingLookup`. -/
def specStripCiudad (city : String) : String :=
  if strStartsWith city "Ciudad de " then
    String.mk (city.toList.drop "Ciudad de ".toList.length)
  else city

/-- One UnifiedRecord: the body of the inner loop of `compile_data`
for a city and a time point whose token matched the pattern. -/
def mkURow (emp sal pop hous : CityMap) (city tp : String) (y q : ℤ) : URow :=
  let s := mapGet sal city tp
  let h := housingLookup hous city tp
  let m := s.map (fun v => v * 160)
  { city := city
    time_point := tp
    year := y
    quarter := q
    employment_rate := mapGet emp city tp
    hourly_salary := s
    population := mapGet pop city tp
    housing_index := h
    monthly_salary := m
    real_wage :=
      match m, h with
      | some mv, some hv => some (mv / hv)
      | _, _ => none }

/-- All rows of one city, over the canonical time points in order;
non-matching time-point tokens are skipped. -/
def cityBlock (emp sal pop hous : CityMap) (tps : List String) (city : String) :
    List URow :=
  tps.filterMap (fun tp =>
    (parseTimePoint tp).map (fun yq => mkURow emp sal pop hous city tp yq.1 yq.2))

/-- The loop's skip of the reserved aggregate label and empty name. -/
def cityOk (c : String) : Bool :=
  !(c == "Áreas metropolitanas") && !(c == "")

/-- Models `compile_data`: `order` is the iteration order of the
Python set `all_cities` (hash-dependent, hence a parameter); the
canonical member set is the union of the three dictionaries' keys. -/
def compile_data (order : List String) (emp sal pop hous : CityMap)
    (tps : List String) : List URow :=
  (order.filter cityOk).flatMap (cityBlock emp sal pop hous tps)

/-- The canonical member set of `all_cities` (first-occurrence
order of the concatenated key lists; the set itself is unordered). -/
def allCityNames (emp sal pop : CityMap) : List String :=
  dedupFirst (emp.map (·.1) ++ sal.map (·.1) ++ pop.map (·.1))

/-! ### Growth engine (`calculate_growth_rates`, `calculate_cagr`) -/

/-- Skip-NaN arithmetic mean: models pandas `mean`, which averages
the non-null entries and yields NaN when none are non-null. -/
def meanOf (l : List Val) : Val :=
  match l.filterMap id with
  | [] => none
  | vs => some (vs.sum / (vs.length : ℚ))

/-- Grouping key of a unified row. -/
def rowKey (r : URow) : String × ℤ := (r.city, r.year)

/-- The distinct `(city, year)` keys of the dataset. -/
def rowKeys (u : List URow) : List (String × ℤ) := dedupFirst (u.map rowKey)

/-- Lexicographic order on `(city, year)`: `pandas.groupby` sorts the
group keys ascending (strings by code point, as Python does). -/
def keyRel (a b : String × ℤ) : Prop :=
  a.1 < b.1 ∨ (a.1 = b.1 ∧ a.2 ≤ b.2)

instance : DecidableRel keyRel := fun a b =>
  inferInstanceAs (Decidable (a.1 < b.1 ∨ (a.1 = b.1 ∧ a.2 ≤ b.2)))

/-- The sorted group keys of `groupby(['city', 'year'])`. -/
def sortedKeys (u : List URow) : List (String × ℤ) :=
  List.insertionSort keyRel (rowKeys u)

/-- The rows of one `(city, year)` group, in dataset order. -/
def groupOf (u : List URow) (k : String × ℤ) : List URow :=
  (u.filter (fun r => r.city == k.1)).filter (fun r => r.year == k.2)

/-- One row of the yearly aggregate used by the growth pass. -/
structure YRow where
  city : String
  year : ℤ
  employment_rate : Val
  monthly_salary : Val
  real_wage : Val
  population : Val
  housing_index : Val
deriving DecidableEq

def mkYRow (k : String × ℤ) (g : List URow) : YRow :=
  { city := k.1
    year := k.2
    employment_rate := meanOf (g.map (·.employment_rate))
    monthly_salary := meanOf (g.map (·.monthly_salary))
    real_wage := meanOf (g.map (·.real_wage))
    population := meanOf (g.map (·.population))
    housing_index := meanOf (g.map (·.housing_index)) }

/-- The `groupby(['city','year']).agg(mean).reset_index()` step of
`calculate_growth_rates`. -/
def yearlyData (u : List URow) : List YRow :=
  (sortedKeys u).map (fun k => mkYRow k (groupOf u k))

/-- One yearly growth value: the guard
`not isnan(prev) and prev > 0` selects the formula
`((curr / prev) - 1) * 100`, whose NaN operand `curr` propagates. -/
def growthField (prev curr : Val) : Val :=
  match prev with
  | some p => if 0 < p then curr.map (fun c => (c / p - 1) * 100) else none
  | none => none

/-- One row of the year-over-year growth table. -/
structure GRow where
  city : String
  year : ℤ
  avg_employment_rate : Val
  avg_monthly_salary : Val
  avg_real_wage : Val
  avg_population : Val
  avg_housing_index : Val
  population_growth : Val
  real_wage_growth : Val
  nominal_wage_growth : Val
deriving DecidableEq

def mkGRow (city : String) (prev curr : YRow) : GRow :=
  { city := city
    year := curr.year
    avg_employment_rate := curr.employment_rate
    avg_monthly_salary := curr.monthly_salary
    avg_real_wage := curr.real_wage
    avg_population := curr.population
    avg_housing_index := curr.housing_index
    population_growth := growthField prev.population curr.population
    real_wage_growth := growthField prev.real_wage curr.real_wage
    nominal_wage_growth := growthField prev.monthly_salary curr.monthly_salary }

/-- The loop `for i in range(1, len(city_data))`: one record per
consecutive pair of the city's yearly rows. -/
def growthPairs (city : String) : List YRow → List GRow
  | p :: c :: rest => mkGRow city p c :: growthPairs city (c :: rest)
  | _ => []

/-- Ascending-year order on yearly rows (`sort_values('year')`). -/
def yLE (a b : YRow) : Prop := a.year ≤ b.year

instance : DecidableRel yLE := fun a b => Int.decLe a.year b.year

def sortYearly (l : List YRow) : List YRow := List.insertionSort yLE l

/-- The per-city half of `calculate_growth_rates`, applied to the
yearly aggregate. -/
def growthOfYearly (ys : List YRow) : List GRow :=
  (dedupFirst (ys.map (·.city))).flatMap
    (fun c => growthPairs c (sortYearly (ys.filter (fun y => y.city == c))))

/-- Models `calculate_growth_rates(data)`. -/
def calculate_growth_rates (data : List URow) : List GRow :=
  growthOfYearly (yearlyData data)

/-- One row of the CAGR pass's yearly aggregate (that pass aggregates
only these three metrics). -/
structure CYRow where
  city : String
  year : ℤ
  population : Val
  real_wage : Val
  monthly_salary : Val
deriving DecidableEq

def mkCYRow (k : String × ℤ) (g : List URow) : CYRow :=
  { city := k.1
    year := k.2
    population := meanOf (g.map (·.population))
    real_wage := meanOf (g.map (·.real_wage))
    monthly_salary := meanOf (g.map (·.monthly_salary)) }

/-- The `groupby(['city','year']).agg(mean)` step of
`calculate_cagr`. -/
def cyearlyData (u : List URow) : List CYRow :=
  (sortedKeys u).map (fun k => mkCYRow k (groupOf u k))

/-- The inclusive window filter of `calculate_cagr`. -/
def cwindow (ys : List CYRow) (s e : ℤ) : List CYRow :=
  ys.filter (fun r => decide (s ≤ r.year ∧ r.year ≤ e))

def cyLE (a b : CYRow) : Prop := a.year ≤ b.year

instance : DecidableRel cyLE := fun a b => Int.decLe a.year b.year

def sortCYearly (l : List CYRow) : List CYRow := List.insertionSort cyLE l

/-- The span: `end_year - start_year if end_year > start_year else 1`. -/
def cagrSpan (s e : ℤ) : ℤ := if s < e then e - s else 1

/-- One CAGR value: the guard `not isnan(first) and first > 0` selects
`(last / first) ** (1 / span) - 1`, converted to a percentage in the
emitted record; a NaN `last` propagates through the abstract float
power `pw`. -/
def cagrField (pw : ℚ → ℚ → ℚ) (first last : Val) (span : ℤ) : Val :=
  match first with
  | some f =>
    if 0 < f then last.map (fun l => (pw (l / f) (1 / (span : ℚ)) - 1) * 100)
    else none
  | none => none

/-- One row of the CAGR table. -/
structure CRow where
  city : String
  start_year : ℤ
  end_year : ℤ
  years : ℤ
  population_cagr : Val
  real_wage_cagr : Val
  nominal_wage_cagr : Val
deriving DecidableEq

def mkCRow (pw : ℚ → ℚ → ℚ) (c : String) (s e : ℤ) (first last : CYRow) : CRow :=
  { city := c
    start_year := s
    end_year := e
    years := cagrSpan s e
    population_cagr := cagrField pw first.population last.population (cagrSpan s e)
    real_wage_cagr := cagrField pw first.real_wage last.real_wage (cagrSpan s e)
    nominal_wage_cagr :=
      cagrField pw first.monthly_salary last.monthly_salary (cagrSpan s e) }

/-- The per-city body of `calculate_cagr`'s loop: sort the city's
in-window rows by year; with at least two rows, emit one record from
the first and last rows, else nothing. -/
def cagrForCity (pw : ℚ → ℚ → ℚ) (s e : ℤ) (filtered : List CYRow) (c : String) :
    Option CRow :=
  match sortCYearly (filtered.filter (fun r => r.city == c)) with
  | [] => none
  | f :: rest =>
    if 2 ≤ rest.length + 1 then some (mkCRow pw c s e f (rest.getLastD f))
    else none

/-- The CAGR pass applied to its yearly aggregate. -/
def cagrOfYearly (pw : ℚ → ℚ → ℚ) (ys : List CYRow) (s e : ℤ) : List CRow :=
  (dedupFirst ((cwindow ys s e).map (·.city))).filterMap
    (cagrForCity pw s e (cwindow ys s e))

/-- Models `calculate_cagr(data, start_year, end_year)`. -/
def calculate_cagr (pw : ℚ → ℚ → ℚ) (data : List URow) (s e : ℤ) : List CRow :=
  cagrOfYearly pw (cyearlyData data) s e

/-! ### The full pipeline (`main`) -/

structure PipelineOut where
  unified : List URow
  growth : List GRow
  cagr : List CRow
deriving DecidableEq

/-- Models the core path of `main()`: read the three spreadsheet-like
files (the employment parse supplies the canonical time points) and
the housing file, join, derive growth, and derive CAGR for the fixed
window 2015–2020. -/
def runPipeline (pw : ℚ → ℚ → ℚ) (rng : ℕ → ℚ) (order : List String)
    (empF salF popF : Option ExcelFile) (housF : Option (List CsvRow)) :
    PipelineOut :=
  let ep := read_excel_html_table rng "Employment rate by city.xls" empF
  let sp := read_excel_html_table rng "Mean hourly salary by city.xls" salF
  let pp := read_excel_html_table rng "Population by city.xls" popF
  let hous := read_housing_cost rng housF
  let unified := compile_data order ep.1 sp.1 pp.1 hous ep.2
  { unified := unified
    growth := calculate_growth_rates unified
    cagr := calculate_cagr pw unified 2015 2020 }

set_option maxRecDepth 100000

/-! ### Concrete instances used by counterexamples and witnesses -/

/-- A placeholder power function and random stream for closed
instances (any function works: the theorems are uniform in them). -/
def pw0 : ℚ → ℚ → ℚ := fun _ _ => 0

def rng0 : ℕ → ℚ := fun _ => 0

def rng1 : ℕ → ℚ := fun n => (n : ℚ)

/-- A minimal two-city spreadsheet file: six preamble rows, the year
and quarter header rows, then two data rows. -/
def eF0 : ExcelFile :=
  [[], [], [], [], [], [],
   ["", "2015", "2016"], ["", "1", "1"],
   ["CityA", "1", "2"], ["CityB", "3", "4"]]

/-- The parse of `eF0`. -/
def pe0 : ExcelParse :=
  { city_data := [("CityA", [("2015Q1", some 1), ("2016Q1", some 2)]),
                  ("CityB", [("2015Q1", some 3), ("2016Q1", some 4)])],
    time_points := ["2015Q1", "2016Q1"] }

/-- A one-city input whose housing index is zero in 2015Q1. -/
def empW : CityMap := [("A", [("2015Q1", some 1), ("2016Q1", some 1)])]

def salW : CityMap := [("A", [("2015Q1", some 2), ("2016Q1", some 3)])]

def popW : CityMap := [("A", [("2015Q1", some 10), ("2016Q1", some 20)])]

def housW : CityMap := [("A", [("2015Q1", some 0), ("2016Q1", some 4)])]

def tpsW : List String := ["2015Q1", "2016Q1"]

def uW : List URow := compile_data ["A"] empW salW popW housW tpsW

/-- A default unified row (for total head/tail extraction). -/
def u0 : URow := ⟨"", "", 0, 0, none, none, none, none, none, none⟩

def rW1 : URow := uW.headD u0

def rW2 : URow := (uW.drop 1).headD u0

/-- A city name containing `"Ciudad de "` in the middle rather than as
a prefix, and a housing dictionary keyed by the replace-all image of
that name. -/
def empX : CityMap := [("Zona Ciudad de X", [("2015Q1", some 1)])]

def housX : CityMap := [("Zona X", [("2015Q1", some 7)])]

def uX : List URow := compile_data ["Zona Ciudad de X"] empX [] [] housX ["2015Q1"]

/-- A housing CSV record whose identifier starts with `"ZM"` but not
with `"ZM "`. -/
def csvZMX : CsvRow := ⟨"ZMX", "2015", "1", some 1⟩

/-! ### Helper lemmas -/

theorem mem_dedupFirst [DecidableEq α] (a : α) (l : List α) :
    a ∈ dedupFirst l ↔ a ∈ l := by
  induction l with
  | nil => simp [dedupFirst]
  | cons b t ih =>
    simp only [dedupFirst, List.mem_cons, List.mem_filter, ih,
      decide_eq_true_eq]
    by_cases hab : a = b <;> simp [hab]

theorem nodup_dedupFirst [DecidableEq α] (l : List α) :
    (dedupFirst l).Nodup := by
  induction l with
  | nil => simp [dedupFirst]
  | cons b t ih =>
    rw [dedupFirst, List.nodup_cons]
    refine ⟨?_, ih.filter _⟩
    simp [List.mem_filter]

theorem filter_eq_nil_of_not_mem_map {β : Type} (key : β → String) (l : List β)
    (c : String) (h : c ∉ l.map key) :
    l.filter (fun r => key r == c) = [] := by
  rw [List.filter_eq_nil_iff]
  intro r hr hkey
  exact h (List.mem_map.mpr ⟨r, hr, by simpa using hkey⟩)

/-- Filtering a keyed concatenation of per-city blocks down to one
city returns that city's block (or nothing), provided the outer list
has no duplicate city and every row of a block carries its block's
city. -/
theorem filter_flatMap_keyed {β : Type} (key : β → String) (f : String → List β)
    (hf : ∀ c, ∀ r ∈ f c, key r = c) (o : List String) (hnd : o.Nodup)
    (c : String) :
    (o.flatMap f).filter (fun r => key r == c) = if c ∈ o then f c else [] := by
  induction o with
  | nil => simp
  | cons d t ih =>
    have hd := List.nodup_cons.mp hnd
    rw [List.flatMap_cons, List.filter_append, ih hd.2]
    by_cases hcd : c = d
    · subst hcd
      have h1 : (f c).filter (fun r => key r == c) = f c :=
        List.filter_eq_self.mpr (fun r hr => by simpa using hf c r hr)
      rw [h1, if_neg (fun h => hd.1 h), if_pos (List.mem_cons_self _ _)]
      simp
    · have h1 : (f d).filter (fun r => key r == c) = [] := by
        rw [List.filter_eq_nil_iff]
        intro r hr hkey
        have hdc : d = c := by simpa [hf d r hr] using hkey
        exact hcd hdc.symm
      rw [h1]
      simp [List.mem_cons, hcd]

/-- The `filterMap` analogue of `filter_flatMap_keyed`, for the CAGR
loop that emits at most one record per city. -/
theorem filter_filterMap_keyed {β : Type} (key : β → String) (h : String → Option β)
    (hk : ∀ c r, h c = some r → key r = c) (o : List String) (hnd : o.Nodup)
    (c : String) :
    (o.filterMap h).filter (fun r => key r == c) =
      if c ∈ o then (h c).toList else [] := by
  induction o with
  | nil => simp
  | cons d t ih =>
    have hd := List.nodup_cons.mp hnd
    rw [List.filterMap_cons]
    by_cases hcd : c = d
    · subst hcd
      cases hdc : h c with
      | none =>
        rw [ih hd.2, if_neg (fun hmem => hd.1 hmem), if_pos (List.mem_cons_self _ _)]
        simp [hdc]
      | some r =>
        have hr : key r = c := hk c r hdc
        rw [List.filter_cons_of_pos (by simpa using hr), ih hd.2,
          if_neg (fun hmem => hd.1 hmem), if_pos (List.mem_cons_self _ _)]
        simp [hdc]
    · cases hdc : h d with
      | none =>
        rw [ih hd.2]
        simp [List.mem_cons, hcd]
      | some r =>
        have hr : key r = d := hk d r hdc
        rw [List.filter_cons_of_neg (by simp [hr]; exact fun h2 => hcd h2.symm),
          ih hd.2]
        simp [List.mem_cons, hcd]

/-- Every row of a city block carries the block's city. -/
theorem city_of_mem_cityBlock {emp sal pop hous : CityMap} {tps : List String}
    {c : String} {r : URow} (h : r ∈ cityBlock emp sal pop hous tps c) :
    r.city = c := by
  rw [cityBlock, List.mem_filterMap] at h
  obtain ⟨tp, _, heq⟩ := h
  rw [Option.map_eq_some'] at heq
  obtain ⟨yq, _, hmk⟩ := heq
  rw [← hmk]
  rfl

/-- Every row of the unified dataset is an `mkURow` at some city and
matching time point. -/
theorem mem_compile_data {order : List String} {emp sal pop hous : CityMap}
    {tps : List String} {r : URow} (h : r ∈ compile_data order emp sal pop hous tps) :
    ∃ c tp y q, parseTimePoint tp = some (y, q) ∧ r = mkURow emp sal pop hous c tp y q := by
  rw [compile_data, List.mem_flatMap] at h
  obtain ⟨c, _, hr⟩ := h
  rw [cityBlock, List.mem_filterMap] at hr
  obtain ⟨tp, _, heq⟩ := hr
  rw [Option.map_eq_some'] at heq
  obtain ⟨yq, hyq, hmk⟩ := heq
  exact ⟨c, tp, yq.1, yq.2, by simpa using hyq, hmk.symm⟩

/-- Every growth record built for a city carries that city. -/
theorem city_of_mem_growthPairs {c : String} :
    ∀ {l : List YRow} {g : GRow}, g ∈ growthPairs c l → g.city = c := by
  intro l
  induction l with
  | nil => intro g h; simp [growthPairs] at h
  | cons p t ih =>
    intro g h
    cases t with
    | nil => simp [growthPairs] at h
    | cons q t2 =>
      rw [growthPairs, List.mem_cons] at h
      rcases h with h | h
      · rw [h]; rfl
      · exact ih h

/-- `growthPairs` is the map of the record constructor over the list
of consecutive pairs. -/
theorem growthPairs_eq_zip {c : String} :
    ∀ l : List YRow,
      growthPairs c l = (l.zip l.tail).map (fun p => mkGRow c p.1 p.2) := by
  intro l
  induction l with
  | nil => rfl
  | cons p t ih =>
    cases t with
    | nil => rfl
    | cons q t2 =>
      rw [growthPairs, ih]
      rfl

theorem mkURow_city (emp sal pop hous : CityMap) (c tp : String) (y q : ℤ) :
    (mkURow emp sal pop hous c tp y q).city = c := rfl

theorem mkURow_time_point (emp sal pop hous : CityMap) (c tp : String) (y q : ℤ) :
    (mkURow emp sal pop hous c tp y q).time_point = tp := rfl

theorem mkURow_hourly (emp sal pop hous : CityMap) (c tp : String) (y q : ℤ) :
    (mkURow emp sal pop hous c tp y q).hourly_salary = mapGet sal c tp := rfl

theorem mkURow_monthly (emp sal pop hous : CityMap) (c tp : String) (y q : ℤ) :
    (mkURow emp sal pop hous c tp y q).monthly_salary
      = (mapGet sal c tp).map (fun v => v * 160) := rfl

theorem mkURow_housing (emp sal pop hous : CityMap) (c tp : String) (y q : ℤ) :
    (mkURow emp sal pop hous c tp y q).housing_index = housingLookup hous c tp := rfl

theorem mkURow_real_wage (emp sal pop hous : CityMap) (c tp : String) (y q : ℤ) :
    (mkURow emp sal pop hous c tp y q).real_wage
      = match (mkURow emp sal pop hous c tp y q).monthly_salary,
          (mkURow emp sal pop hous c tp y q).housing_index with
        | some mv, some hv => some (mv / hv)
        | _, _ => none := rfl

/-! ### Claim theorems -/

/-- C3.  Every record of the reconciliation join has
`monthly_salary = hourly_salary * 160` when the hourly salary is
present and a null monthly salary when it is absent
(`monthly_salary = salary_value * 160 if not np.isnan(salary_value)
else np.nan`). -/
theorem unified_monthly_salary (order : List String) (emp sal pop hous : CityMap)
    (tps : List String) (r : URow) (h : r ∈ compile_data order emp sal pop hous tps) :
    (∀ hs : ℚ, r.hourly_salary = some hs → r.monthly_salary = some (hs * 160))
  ∧ (r.hourly_salary = none → r.monthly_salary = none) := by
  obtain ⟨c, tp, y, q, _, rfl⟩ := mem_compile_data h
  rw [mkURow_hourly, mkURow_monthly]
  constructor
  · intro hs hhs
    rw [hhs]
    rfl
  · intro hhs
    rw [hhs]
    rfl

/-- Witness for C3 on a concrete dataset: the 2015Q1 row of city "A"
has hourly salary 2, hence monthly salary 320. -/
theorem unified_monthly_salary_witness : rW1.monthly_salary = some (2 * 160) :=
  (unified_monthly_salary ["A"] empW salW popW housW tpsW rW1
    (by with_unfolding_all decide)).1 2 (by with_unfolding_all rfl)

/-- C4.  Every record of the reconciliation join has a null real wage
when the housing index or the monthly salary is null, and otherwise
`real_wage = monthly_salary / housing_index`. -/
theorem unified_real_wage (order : List String) (emp sal pop hous : CityMap)
    (tps : List String) (r : URow) (h : r ∈ compile_data order emp sal pop hous tps) :
    (r.housing_index = none → r.real_wage = none)
  ∧ (r.monthly_salary = none → r.real_wage = none)
  ∧ (∀ m hv : ℚ, r.monthly_salary = some m → r.housing_index = some hv →
      r.real_wage = some (m / hv)) := by
  obtain ⟨c, tp, y, q, _, rfl⟩ := mem_compile_data h
  rw [mkURow_real_wage]
  rw [mkURow_monthly, mkURow_housing]
  refine ⟨?_, ?_, ?_⟩
  · intro h1
    rw [h1]
    cases (mapGet sal c tp).map (fun v => v * 160) <;> rfl
  · intro h1
    rw [h1]
  · intro m hv h1 h2
    rw [h1, h2]

/-- Witness for C4 on a concrete dataset: the 2016Q1 row of city "A"
has monthly salary 480 and housing index 4, hence real wage 120. -/
theorem unified_real_wage_witness : rW2.real_wage = some ((480 : ℚ) / 4) :=
  (unified_real_wage ["A"] empW salW popW housW tpsW rW2
    (by with_unfolding_all decide)).2.2 480 4
    (by with_unfolding_all rfl) (by with_unfolding_all rfl)

/-- C10.  The real-wage division is guarded only by the two NaN
checks: with a present monthly salary and a present-but-zero housing
index the emitted value is the unguarded quotient (in this ℚ
embedding, Lean's total division at denominator 0) and in particular
is not null; the concrete dataset `uW` reaches that branch. -/
theorem real_wage_zero_division :
    (∀ (order : List String) (emp sal pop hous : CityMap) (tps : List String)
        (r : URow) (m : ℚ), r ∈ compile_data order emp sal pop hous tps →
        r.monthly_salary = some m → r.housing_index = some 0 →
        r.real_wage = some (m / 0))
  ∧ rW1 ∈ uW ∧ rW1.monthly_salary = some 320 ∧ rW1.housing_index = some 0
  ∧ rW1.real_wage = some (320 / 0) ∧ rW1.real_wage ≠ none := by
  refine ⟨?_, by with_unfolding_all decide, by with_unfolding_all rfl,
    by with_unfolding_all rfl, by with_unfolding_all rfl, ?_⟩
  · intro order emp sal pop hous tps r m h hm hh
    obtain ⟨c, tp, y, q, _, rfl⟩ := mem_compile_data h
    rw [mkURow_real_wage]
    rw [mkURow_monthly] at hm ⊢
    rw [mkURow_housing] at hh ⊢
    rw [hm, hh]
  · have h1 : rW1.real_wage = some (320 / 0) := by with_unfolding_all rfl
    rw [h1]
    exact Option.some_ne_none _

/-- Witness for C10's universally quantified part, at the concrete
zero-housing row of `uW`. -/
theorem real_wage_zero_division_witness : rW1.real_wage = some ((320 : ℚ) / 0) :=
  real_wage_zero_division.1 ["A"] empW salW popW housW tpsW rW1 320
    (by with_unfolding_all decide) (by with_unfolding_all rfl)
    (by with_unfolding_all rfl)

/-- C7, counterexample.  For the city name "Zona Ciudad de X" (which
contains "Ciudad de " in the middle, not as a prefix) the code's first
lookup key is the replace-all image "Zona X": the emitted record finds
a housing index even though neither of the claim's two keys — the
prefix-stripped name (unchanged here) and the literal name — is
present in the housing dictionary, where the claim requires null. -/
theorem housing_key_replace_cex :
    uX.headD u0 ∈ uX
  ∧ (uX.headD u0).city = "Zona Ciudad de X"
  ∧ (uX.headD u0).housing_index = some 7
  ∧ specStripCiudad "Zona Ciudad de X" = "Zona Ciudad de X"
  ∧ mapFind housX "Zona Ciudad de X" = none := by
  refine ⟨by with_unfolding_all decide, ?_, ?_, ?_, ?_⟩ <;> with_unfolding_all rfl

/-- C7, amended.  The housing index of every emitted record is
resolved by trying two keys in order — first the city name with every
occurrence of "Ciudad de " removed (`str.replace`), then the
unmodified city name — the first key present in the dictionary
winning, and null when neither key is present. -/
theorem housing_key_resolution (order : List String) (emp sal pop hous : CityMap)
    (tps : List String) (r : URow) (h : r ∈ compile_data order emp sal pop hous tps) :
    r.housing_index = housingLookup hous r.city r.time_point
  ∧ (mapFind hous (strReplace r.city "Ciudad de " "") = none →
      mapFind hous r.city = none → r.housing_index = none) := by
  obtain ⟨c, tp, y, q, _, rfl⟩ := mem_compile_data h
  rw [mkURow_housing, mkURow_city, mkURow_time_point]
  refine ⟨rfl, ?_⟩
  intro h1 h2
  rw [housingLookup, h1, h2]

/-- Witness for C7's amended theorem at a concrete row of `uW`. -/
theorem housing_key_resolution_witness :
    rW1.housing_index = housingLookup housW rW1.city rW1.time_point :=
  (housing_key_resolution ["A"] empW salW popW housW tpsW rW1
    (by with_unfolding_all decide)).1

/-- C5, counterexample.  On a file that cannot be opened the parser
does not propagate any Data-Source-Unavailable condition: it recovers
internally, returning the synthetic sample dataset, whereas the
spec-modelled parser fails. -/
theorem source_unavailable_cex :
    read_excel_html_table rng0 "Employment rate by city.xls" none
        = create_sample_data rng0 "Employment rate by city.xls"
  ∧ read_excel_per_spec none = Except.error SourceError.unavailable :=
  ⟨rfl, rfl⟩

/-- C5, amended.  For every file that cannot be opened (`none`) or
whose parse raises (`parseRows _ = none`), the parser recovers
internally by returning synthetic sample data; no error condition
reaches the caller, and a successful parse is returned as is. -/
theorem source_fallback_internal (rng : ℕ → ℚ) (ft : String) :
    read_excel_html_table rng ft none = create_sample_data rng ft
  ∧ (∀ rows : ExcelFile, parseRows rows = none →
      read_excel_html_table rng ft (some rows) = create_sample_data rng ft)
  ∧ (∀ (rows : ExcelFile) (p : ExcelParse), parseRows rows = some p →
      read_excel_html_table rng ft (some rows) = (p.city_data, p.time_points)) := by
  refine ⟨rfl, ?_, ?_⟩
  · intro rows hnone
    rw [read_excel_html_table, hnone]
  · intro rows p hsome
    rw [read_excel_html_table, hsome]

/-- Witness for C5's amended theorem: the empty row list has no
header rows, so its parse raises and the fallback dataset is
returned. -/
theorem source_fallback_internal_witness :
    read_excel_html_table rng0 "Population by city.xls" (some []) =
      create_sample_data rng0 "Population by city.xls" :=
  (source_fallback_internal rng0 "Population by city.xls").2.1 [] rfl

/-- C6.  Cell parsing is a total function of the cell text (its
result type is an optional value, and every failure is the `none`
branch rather than an error): the sentinel "No aplica" yields null,
a decimal-comma number parses after comma-to-period replacement, and
unparseable text yields null. -/
theorem cell_parsing_total :
    (∀ t : String, parseCell t =
        if t = "No aplica" then none else pyFloat (strReplace t "," "."))
  ∧ parseCell "No aplica" = none
  ∧ parseCell "45,2" = some ((452 : ℚ) / 10)
  ∧ parseCell "N/D" = none
  ∧ parseCell "" = none := by
  refine ⟨fun t => rfl, rfl, ?_, ?_, ?_⟩ <;> with_unfolding_all rfl

/-- C8, counterexample.  The filter
`data['Global'].str.contains('^ZM', regex=True)` keeps the row with
identifier "ZMX", which does not start with the claim's
three-character prefix "ZM ". -/
theorem zm_two_char_cex :
    zmFilter [csvZMX] = [csvZMX] ∧ strStartsWith csvZMX.globalId "ZM " = false := by
  constructor <;> with_unfolding_all rfl

/-- C8, amended.  The housing parser's row filter keeps exactly those
rows whose identifier starts with the two-character prefix "ZM". -/
theorem zm_filter_membership (rows : List CsvRow) (r : CsvRow) :
    r ∈ zmFilter rows ↔ r ∈ rows ∧ strStartsWith r.globalId "ZM" = true := by
  simp [zmFilter, List.mem_filter]

/-- A CAGR record emitted for a city carries that city. -/
theorem city_of_cagrForCity {pw : ℚ → ℚ → ℚ} {s e : ℤ} {filt : List CYRow}
    {c : String} {r : CRow} (h : cagrForCity pw s e filt c = some r) :
    r.city = c := by
  rw [cagrForCity] at h
  split at h
  · exact absurd h (by simp)
  · split at h
    · cases h
      rfl
    · exact absurd h (by simp)

/-- C1.  The year-over-year pass, per city: the growth records whose
city is `c` are exactly one record per consecutive pair of that
city's yearly-aggregate rows sorted by year ascending (so a city with
fewer than two yearly rows contributes no records), and each record's
growth fields are `((curr / prev) - 1) * 100` guarded to null unless
the prior-year base value is present and strictly positive (a missing
current value propagating to null). -/
theorem growth_records_per_city (data : List URow) (c : String) :
    (calculate_growth_rates data).filter (fun g => g.city == c)
      = growthPairs c (sortYearly ((yearlyData data).filter (fun y => y.city == c)))
  ∧ (∀ l : List YRow,
      growthPairs c l = (l.zip l.tail).map (fun p => mkGRow c p.1 p.2))
  ∧ (∀ p q : YRow,
        (mkGRow c p q).city = c
      ∧ (mkGRow c p q).year = q.year
      ∧ (mkGRow c p q).population_growth =
          (match p.population with
           | some pv =>
             if 0 < pv then q.population.map (fun cv => (cv / pv - 1) * 100)
             else none
           | none => none)
      ∧ (mkGRow c p q).real_wage_growth =
          (match p.real_wage with
           | some pv =>
             if 0 < pv then q.real_wage.map (fun cv => (cv / pv - 1) * 100)
             else none
           | none => none)
      ∧ (mkGRow c p q).nominal_wage_growth =
          (match p.monthly_salary with
           | some pv =>
             if 0 < pv then q.monthly_salary.map (fun cv => (cv / pv - 1) * 100)
             else none
           | none => none))
  ∧ (∀ l : List YRow, l.length < 2 → growthPairs c l = []) := by
  refine ⟨?_, growthPairs_eq_zip, fun p q => ⟨rfl, rfl, rfl, rfl, rfl⟩, ?_⟩
  · rw [calculate_growth_rates, growthOfYearly,
      filter_flatMap_keyed (fun g => g.city)
        (fun c2 => growthPairs c2
          (sortYearly ((yearlyData data).filter (fun y => y.city == c2))))
        (fun c2 r hr => city_of_mem_growthPairs hr)
        (dedupFirst ((yearlyData data).map (·.city)))
        (nodup_dedupFirst _) c]
    by_cases hc : c ∈ dedupFirst ((yearlyData data).map (·.city))
    · rw [if_pos hc]
    · rw [if_neg hc]
      rw [filter_eq_nil_of_not_mem_map (·.city) (yearlyData data) c
        (fun hmem => hc ((mem_dedupFirst c _).mpr hmem))]
      rfl
  · intro l hl
    match l with
    | [] => rfl
    | [_] => rfl
    | _ :: _ :: _ => exact absurd hl (by simp)

/-- Witness for C1 at a concrete dataset (the first conjunct at `uW`
and the empty-list case of the final conjunct). -/
theorem growth_records_per_city_witness :
    (calculate_growth_rates uW).filter (fun g => g.city == "A")
      = growthPairs "A" (sortYearly ((yearlyData uW).filter (fun y => y.city == "A")))
  ∧ growthPairs "A" [] = [] :=
  ⟨(growth_records_per_city uW "A").1,
   (growth_records_per_city uW "A").2.2.2 [] (by decide)⟩

/-- C2.  The CAGR pass, per city: for each city the emitted records
are the optional single record of `cagrForCity` over the window's
yearly rows (present exactly when the city has at least two in-window
rows, built from the first and last rows of the sorted filtered set),
the span is `max (end_year - start_year) 1`, and each value is
`(pw (last / first) (1 / span) - 1) * 100` guarded to null unless the
first (base) value is present and strictly positive (a missing last
value propagating to null through the abstract float power `pw`). -/
theorem cagr_records_per_city (pw : ℚ → ℚ → ℚ) (data : List URow) (s e : ℤ)
    (c : String) :
    (calculate_cagr pw data s e).filter (fun g => g.city == c)
      = (cagrForCity pw s e (cwindow (cyearlyData data) s e) c).toList
  ∧ cagrSpan s e = max (e - s) 1
  ∧ (∀ (filt : List CYRow) (f : CYRow) (rest : List CYRow),
        sortCYearly (filt.filter (fun r => r.city == c)) = f :: rest →
        cagrForCity pw s e filt c =
          if 2 ≤ rest.length + 1 then some (mkCRow pw c s e f (rest.getLastD f))
          else none)
  ∧ (∀ filt : List CYRow,
        sortCYearly (filt.filter (fun r => r.city == c)) = [] →
        cagrForCity pw s e filt c = none)
  ∧ (∀ f l : CYRow,
        (mkCRow pw c s e f l).city = c
      ∧ (mkCRow pw c s e f l).years = cagrSpan s e
      ∧ (mkCRow pw c s e f l).population_cagr =
          (match f.population with
           | some fv =>
             if 0 < fv then
               l.population.map (fun lv => (pw (lv / fv) (1 / (cagrSpan s e : ℚ)) - 1) * 100)
             else none
           | none => none)
      ∧ (mkCRow pw c s e f l).real_wage_cagr =
          (match f.real_wage with
           | some fv =>
             if 0 < fv then
               l.real_wage.map (fun lv => (pw (lv / fv) (1 / (cagrSpan s e : ℚ)) - 1) * 100)
             else none
           | none => none)
      ∧ (mkCRow pw c s e f l).nominal_wage_cagr =
          (match f.monthly_salary with
           | some fv =>
             if 0 < fv then
               l.monthly_salary.map (fun lv => (pw (lv / fv) (1 / (cagrSpan s e : ℚ)) - 1) * 100)
             else none
           | none => none)) := by
  refine ⟨?_, ?_, ?_, ?_, fun f l => ⟨rfl, rfl, rfl, rfl, rfl⟩⟩
  · rw [calculate_cagr, cagrOfYearly,
      filter_filterMap_keyed (fun g => g.city)
        (cagrForCity pw s e (cwindow (cyearlyData data) s e))
        (fun c2 r hr => city_of_cagrForCity hr)
        (dedupFirst ((cwindow (cyearlyData data) s e).map (·.city)))
        (nodup_dedupFirst _) c]
    by_cases hc : c ∈ dedupFirst ((cwindow (cyearlyData data) s e).map (·.city))
    · rw [if_pos hc]
    · rw [if_neg hc]
      have hnil : (cwindow (cyearlyData data) s e).filter (fun r => r.city == c) = [] :=
        filter_eq_nil_of_not_mem_map (fun r : CYRow => r.city)
          (cwindow (cyearlyData data) s e) c
          (fun hmem => hc ((mem_dedupFirst c _).mpr hmem))
      rw [cagrForCity, hnil]
      rfl
  · rw [cagrSpan]
    split <;> omega
  · intro filt f rest hsort
    rw [cagrForCity, hsort]
  · intro filt hsort
    rw [cagrForCity, hsort]

/-- Witness for C2 at a concrete dataset (the first conjunct at `uW`
with the 2015–2016 window, and the no-rows case). -/
theorem cagr_records_per_city_witness :
    (calculate_cagr pw0 uW 2015 2016).filter (fun g => g.city == "A")
      = (cagrForCity pw0 2015 2016 (cwindow (cyearlyData uW) 2015 2016) "A").toList
  ∧ cagrForCity pw0 2015 2016 [] "A" = none :=
  ⟨(cagr_records_per_city pw0 uW 2015 2016 "A").1,
   (cagr_records_per_city pw0 uW 2015 2016 "A").2.2.2.1 [] rfl⟩

instance : IsTotal (String × ℤ) keyRel :=
  ⟨fun a b => by
    rcases lt_trichotomy a.1 b.1 with h | h | h
    · exact Or.inl (Or.inl h)
    · rcases le_total a.2 b.2 with h2 | h2
      · exact Or.inl (Or.inr ⟨h, h2⟩)
      · exact Or.inr (Or.inr ⟨h.symm, h2⟩)
    · exact Or.inr (Or.inl h)⟩

instance : IsTrans (String × ℤ) keyRel :=
  ⟨by
    rintro a b c (h1 | ⟨h1, h1b⟩) (h2 | ⟨h2, h2b⟩)
    · exact Or.inl (h1.trans h2)
    · exact Or.inl (lt_of_lt_of_eq h1 h2)
    · exact Or.inl (lt_of_eq_of_lt h1 h2)
    · exact Or.inr ⟨h1.trans h2, h1b.trans h2b⟩⟩

instance : IsAntisymm (String × ℤ) keyRel :=
  ⟨by
    rintro a b (h1 | ⟨h1, h1b⟩) (h2 | ⟨h2, h2b⟩)
    · exact absurd (h1.trans h2) (lt_irrefl _)
    · exact absurd (lt_of_lt_of_eq h1 h2) (lt_irrefl _)
    · exact absurd (lt_of_lt_of_eq h2 h1) (lt_irrefl _)
    · exact Prod.ext h1 (le_antisymm h1b h2b)⟩

theorem dedupFirst_perm_of_perm [DecidableEq α] {l1 l2 : List α} (h : l1.Perm l2) :
    (dedupFirst l1).Perm (dedupFirst l2) :=
  (List.perm_ext_iff_of_nodup (nodup_dedupFirst _) (nodup_dedupFirst _)).mpr
    (fun a => by rw [mem_dedupFirst, mem_dedupFirst]; exact h.mem_iff)

/-- Permuting the dataset's rows leaves the sorted group-key list
unchanged: the keys are deduplicated and the sort order is total and
antisymmetric. -/
theorem sortedKeys_eq_of_perm {u1 u2 : List URow} (h : u1.Perm u2) :
    sortedKeys u1 = sortedKeys u2 := by
  have hk : (rowKeys u1).Perm (rowKeys u2) := dedupFirst_perm_of_perm (h.map rowKey)
  exact List.eq_of_perm_of_sorted
    ((List.perm_insertionSort keyRel _).trans
      (hk.trans (List.perm_insertionSort keyRel _).symm))
    (List.sorted_insertionSort keyRel _) (List.sorted_insertionSort keyRel _)

/-- The per-city restriction of the unified dataset does not depend
on which enumeration of the city set the join used. -/
theorem cityGroup_compile_eq {emp sal pop hous : CityMap} {tps : List String}
    {o1 o2 : List String} (hperm : o1.Perm o2) (hnd : o1.Nodup) (c : String) :
    (compile_data o1 emp sal pop hous tps).filter (fun r => r.city == c)
      = (compile_data o2 emp sal pop hous tps).filter (fun r => r.city == c) := by
  rw [compile_data, compile_data,
    filter_flatMap_keyed (fun r => r.city) (cityBlock emp sal pop hous tps)
      (fun c2 r hr => city_of_mem_cityBlock hr) (o1.filter cityOk)
      (hnd.filter _) c,
    filter_flatMap_keyed (fun r => r.city) (cityBlock emp sal pop hous tps)
      (fun c2 r hr => city_of_mem_cityBlock hr) (o2.filter cityOk)
      ((hperm.nodup_iff.mp hnd).filter _) c]
  exact if_congr (hperm.filter cityOk).mem_iff rfl rfl

theorem yearlyData_compile_eq {emp sal pop hous : CityMap} {tps : List String}
    {o1 o2 : List String} (hperm : o1.Perm o2) (hnd : o1.Nodup) :
    yearlyData (compile_data o1 emp sal pop hous tps)
      = yearlyData (compile_data o2 emp sal pop hous tps) := by
  have hu : (compile_data o1 emp sal pop hous tps).Perm
      (compile_data o2 emp sal pop hous tps) :=
    (hperm.filter cityOk).flatMap_right (cityBlock emp sal pop hous tps)
  rw [yearlyData, yearlyData, sortedKeys_eq_of_perm hu]
  apply List.map_congr_left
  intro k _
  rw [groupOf, groupOf, cityGroup_compile_eq hperm hnd k.1]

theorem cyearlyData_compile_eq {emp sal pop hous : CityMap} {tps : List String}
    {o1 o2 : List String} (hperm : o1.Perm o2) (hnd : o1.Nodup) :
    cyearlyData (compile_data o1 emp sal pop hous tps)
      = cyearlyData (compile_data o2 emp sal pop hous tps) := by
  have hu : (compile_data o1 emp sal pop hous tps).Perm
      (compile_data o2 emp sal pop hous tps) :=
    (hperm.filter cityOk).flatMap_right (cityBlock emp sal pop hous tps)
  rw [cyearlyData, cyearlyData, sortedKeys_eq_of_perm hu]
  apply List.map_congr_left
  intro k _
  rw [groupOf, groupOf, cityGroup_compile_eq hperm hnd k.1]

/-- On parseable inputs the pipeline reduces to its parse path: the
random stream is never consulted. -/
theorem runPipeline_parsed (pw : ℚ → ℚ → ℚ) (rng : ℕ → ℚ) (order : List String)
    (eF sF pF : ExcelFile) (hF : List CsvRow) (pe ps pp : ExcelParse)
    (hE : parseRows eF = some pe) (hS : parseRows sF = some ps)
    (hP : parseRows pF = some pp) :
    runPipeline pw rng order (some eF) (some sF) (some pF) (some hF)
      = { unified := compile_data order pe.city_data ps.city_data pp.city_data
            (parseHousing hF) pe.time_points,
          growth := calculate_growth_rates (compile_data order pe.city_data
            ps.city_data pp.city_data (parseHousing hF) pe.time_points),
          cagr := calculate_cagr pw (compile_data order pe.city_data ps.city_data
            pp.city_data (parseHousing hF) pe.time_points) 2015 2020 } := by
  rw [runPipeline]
  simp only [read_excel_html_table, read_housing_cost, hE, hS, hP]

/-- C9, counterexample.  Two runs of the pipeline on identical,
readable input files, differing only in the (hash-dependent,
input-independent) iteration order of the city set, produce unified
tables with different row orders — the claimed byte-for-byte equality
"including identical row order" fails. -/
theorem pipeline_order_cex :
    List.Perm ["CityB", "CityA"] ["CityA", "CityB"]
  ∧ (runPipeline pw0 rng0 ["CityB", "CityA"]
        (some eF0) (some eF0) (some eF0) (some [])).unified
      ≠ (runPipeline pw0 rng0 ["CityA", "CityB"]
        (some eF0) (some eF0) (some eF0) (some [])).unified := by
  constructor
  · exact List.Perm.swap _ _ _
  · with_unfolding_all decide

/-- C9, amended.  On identical, parseable input files the pipeline is
independent of the random stream, and across any two valid
enumerations of the city set it yields a unified table equal as a
multiset (row order may follow the enumeration) and byte-for-byte
identical growth and CAGR tables. -/
theorem pipeline_determinism (pw : ℚ → ℚ → ℚ) (rngA rngB : ℕ → ℚ)
    (o1 o2 : List String) (eF sF pF : ExcelFile) (hF : List CsvRow)
    (pe ps pp : ExcelParse) (hE : parseRows eF = some pe)
    (hS : parseRows sF = some ps) (hP : parseRows pF = some pp)
    (hperm : o1.Perm o2) (hnd : o1.Nodup) :
    (runPipeline pw rngA o1 (some eF) (some sF) (some pF) (some hF)).unified.Perm
      ((runPipeline pw rngB o2 (some eF) (some sF) (some pF) (some hF)).unified)
  ∧ (runPipeline pw rngA o1 (some eF) (some sF) (some pF) (some hF)).growth
      = (runPipeline pw rngB o2 (some eF) (some sF) (some pF) (some hF)).growth
  ∧ (runPipeline pw rngA o1 (some eF) (some sF) (some pF) (some hF)).cagr
      = (runPipeline pw rngB o2 (some eF) (some sF) (some pF) (some hF)).cagr := by
  rw [runPipeline_parsed pw rngA o1 eF sF pF hF pe ps pp hE hS hP,
    runPipeline_parsed pw rngB o2 eF sF pF hF pe ps pp hE hS hP]
  refine ⟨?_, ?_, ?_⟩
  · rw [compile_data, compile_data]
    exact (hperm.filter cityOk).flatMap_right _
  · rw [calculate_growth_rates, calculate_growth_rates,
      yearlyData_compile_eq hperm hnd]
  · rw [calculate_cagr, calculate_cagr, cyearlyData_compile_eq hperm hnd]

/-- Witness for C9's amended theorem on the concrete two-city file,
with two distinct random streams and the two city orders of the
counterexample. -/
theorem pipeline_determinism_witness :
    (runPipeline pw0 rng0 ["CityB", "CityA"]
        (some eF0) (some eF0) (some eF0) (some [])).unified.Perm
      ((runPipeline pw0 rng1 ["CityA", "CityB"]
        (some eF0) (some eF0) (some eF0) (some [])).unified)
  ∧ (runPipeline pw0 rng0 ["CityB", "CityA"]
        (some eF0) (some eF0) (some eF0) (some [])).growth
      = (runPipeline pw0 rng1 ["CityA", "CityB"]
        (some eF0) (some eF0) (some eF0) (some [])).growth
  ∧ (runPipeline pw0 rng0 ["CityB", "CityA"]
        (some eF0) (some eF0) (some eF0) (some [])).cagr
      = (runPipeline pw0 rng1 ["CityA", "CityB"]
        (some eF0) (some eF0) (some eF0) (some [])).cagr :=
  pipeline_determinism pw0 rng0 rng1 ["CityB", "CityA"] ["CityA", "CityB"]
    eF0 eF0 eF0 [] pe0 pe0 pe0
    (by with_unfolding_all rfl) (by with_unfolding_all rfl)
    (by with_unfolding_all rfl) (List.Perm.swap _ _ _) (by decide)
